import Mathlib

/-!
Shallow embedding of the async-grading core of the repository
(`src/core/aync_test_runner.py`, `src/core/logic.py`, `src/user_code.py`).

The embedding follows the source line by line:
* Python values that may appear as test results/expectations are `PyVal`;
  Python `==` on them is `pyEq` (numeric values compare equal across
  `int`/`float`/`bool`, as Python does).
* An async call of the user function is abstracted by its observable
  behaviour `CallBehavior`: it either returns a value after some wall-clock
  duration, raises after some duration, or never completes.  Durations are
  rationals (exact wall-clock model).
* `run_single_test` / `run_all_tests` embed `aync_test_runner.py`.
  `asyncio.gather` is modelled by a slot array filled in an arbitrary
  completion order (`run_all_tests_scheduled`), so order-independence is a
  provable statement rather than an assumption.
* `run_with_timeout` embeds `logic.py` lines 50-91; the worker process and
  the OS timing are abstracted by `WorkerEnv` (natural exit time, whether
  the queued message was actually delivered, and how long terminate+join
  takes).  The returned `RunResult` records, besides the `ProcessResult`
  the function returns, the instant the caller regains control and how many
  queue writes/reads the invocation performed.
* `validate_user_code` embeds `logic.py` lines 136-189; the outcome of
  `exec` on the submitted text (an external collaborator per the spec) is
  an explicit input `ExecOutcome`, and the `asyncio.run(run_all_tests ...)`
  invocation is a function argument so that "the harness is never invoked"
  is expressible as independence from that argument.
-/

/-- Python runtime values that occur as test inputs' results and expected
outputs.  `float` carries the exact real value of the float; every float
used in the claims (such as `20.0`) is exactly representable, so rational
equality coincides with Python float equality there. -/
inductive PyVal where
  | int (n : Int)
  | float (val : ℚ)
  | bool (b : Bool)
  | str (s : String)
  | pynone
deriving Repr, DecidableEq

/-- Numeric value of a Python object, if it is numeric: Python compares
`int`, `float` and `bool` by value across types. -/
def PyVal.toNum : PyVal → Option ℚ
  | .int n => some (n : ℚ)
  | .float v => some v
  | .bool b => some (if b then 1 else 0)
  | _ => Option.none

/-- Python `==`: numeric values compare by value across numeric types
(`20.0 == 20` is `True`); non-numeric values compare structurally and
never equal a value of a different kind. -/
def pyEq (a b : PyVal) : Bool :=
  match a.toNum, b.toNum with
  | some x, some y => decide (x = y)
  | _, _ => decide (a = b)

/-- Observable behaviour of one awaited call `user_func(input)`:
return a value after `duration` time-units, raise (with the rendered
traceback `trace`) after `duration` time-units, or never complete. -/
inductive CallBehavior where
  | returns (value : PyVal) (duration : ℚ)
  | raises (trace : String) (duration : ℚ)
  | hangs
deriving Repr, DecidableEq

/-- The result dictionary built by `run_single_test`
(`aync_test_runner.py` lines 57-83), with the same keys. -/
structure TestRes (α : Type) where
  input : α
  expected : PyVal
  result : Option PyVal
  passed : Bool
  time : Option ℚ
  error : Option String
deriving Repr, DecidableEq

/-- The message of the `except asyncio.TimeoutError` branch
(`aync_test_runner.py` line 72). -/
def timeout_error_msg : String := "TimeoutError: выполнение превысило лимит времени"

/-- Default per-case timeout of `run_single_test` (3.0 seconds,
`aync_test_runner.py` line 25). -/
def default_timeout : ℚ := 3

/-- Embedding of `run_single_test` (`aync_test_runner.py` lines 21-83).
`asyncio.wait_for` raises `TimeoutError` exactly when the call does not
complete within `timeout` (behaviour `hangs`, or a completion strictly
after the deadline — even an exception that would occur after the deadline
is pre-empted by the cancellation); otherwise a raised exception is caught
by the generic handler and rendered, and a returned value is compared to
the expectation with Python `==`. -/
def run_single_test (user_func : α → CallBehavior) (input_data : α)
    (expected_output : PyVal) (timeout : ℚ) : TestRes α :=
  match user_func input_data with
  | .returns v d =>
    if timeout < d then
      { input := input_data, expected := expected_output, result := Option.none,
        passed := false, time := Option.none, error := some timeout_error_msg }
    else
      { input := input_data, expected := expected_output, result := some v,
        passed := pyEq v expected_output, time := some d, error := Option.none }
  | .raises tb d =>
    if timeout < d then
      { input := input_data, expected := expected_output, result := Option.none,
        passed := false, time := Option.none, error := some timeout_error_msg }
    else
      { input := input_data, expected := expected_output, result := Option.none,
        passed := false, time := Option.none, error := some tb }
  | .hangs =>
      { input := input_data, expected := expected_output, result := Option.none,
        passed := false, time := Option.none, error := some timeout_error_msg }

/-- Does the call behaviour exceed the given deadline (so that
`asyncio.wait_for` raises `TimeoutError`)? -/
def exceedsTimeout (b : CallBehavior) (timeout : ℚ) : Bool :=
  match b with
  | .returns _ d => decide (timeout < d)
  | .raises _ d => decide (timeout < d)
  | .hangs => true

/-- Slot store used to model `asyncio.gather`: each completing task writes
its own result into its own index; `fillSlots run order s` performs the
writes of `order` (a completion order of task indices) on top of `s`. -/
def fillSlots (run : Nat → Option β) : List Nat → (Nat → Option β) → Nat → Option β
  | [], s => s
  | i :: rest, s => fillSlots run rest (fun j => if j = i then run i else s j)

/-- The result of task `i` of `run_all_tests` (`aync_test_runner.py`
line 112): `run_single_test` on the i-th case with the default timeout. -/
def caseResult (user_func : α → CallBehavior) (test_cases : List (α × PyVal))
    (i : Nat) : Option (TestRes α) :=
  (test_cases[i]?).map (fun c => run_single_test user_func c.1 c.2 default_timeout)

/-- Embedding of `run_all_tests` (`aync_test_runner.py` lines 86-114) with
an explicit completion order of the concurrently running tasks:
`asyncio.gather` lets the tasks finish in any order (`schedule`), each task
writes only its own slot, and the slots are read out in input order. -/
def run_all_tests_scheduled (user_func : α → CallBehavior)
    (test_cases : List (α × PyVal)) (schedule : List Nat) : List (TestRes α) :=
  (List.range test_cases.length).filterMap
    (fillSlots (caseResult user_func test_cases) schedule (fun _ => Option.none))

/-- Embedding of `run_all_tests` with the canonical completion order. -/
def run_all_tests (user_func : α → CallBehavior)
    (test_cases : List (α × PyVal)) : List (TestRes α) :=
  run_all_tests_scheduled user_func test_cases (List.range test_cases.length)

/-- A message put on the multiprocessing queue by the worker
(`logic.py` lines 45 and 47). -/
inductive ProcessMsg where
  | result (v : PyVal)
  | error (msg : String)
deriving Repr, DecidableEq

/-- The value returned by `run_with_timeout`: the source type is
`Tuple[Literal["result", "error", "timeout"], Union[OutputType, str]]`
(`logic.py` line 22). -/
inductive ProcessResult where
  | result (v : PyVal)
  | error (msg : String)
  | timeout (msg : String)
deriving Repr, DecidableEq

/-- The status literal of a `ProcessResult` (first component of the
source's tuple). -/
def ProcessResult.status : ProcessResult → String
  | .result _ => "result"
  | .error _ => "error"
  | .timeout _ => "timeout"

/-- A queued worker message, as returned by `queue.get()` at
`logic.py` line 89. -/
def msgToResult : ProcessMsg → ProcessResult
  | .result v => .result v
  | .error m => .error m

/-- Embedding of `user_code.process_data`: sum of squares of the even
entries (Python `%` on a positive modulus agrees with `Int.emod`). -/
def process_data (data : List Int) : Int :=
  ((data.filter (fun x => x % 2 == 0)).map (fun x => x ^ 2)).sum

/-- Embedding of `run_user_code_in_process` (`logic.py` lines 26-47): the
worker runs the statically imported `user_code.process_data` on the input —
the `user_code_str` parameter is received but never used — and puts one
`("result", value)` message on the queue (`process_data` is total on
`List Int`, so the `except` branch putting `("error", str(e))` is
unreachable for these inputs). -/
def run_user_code_in_process (user_code_str : String) (input_data : List Int) :
    ProcessMsg :=
  ProcessMsg.result (PyVal.int (process_data input_data))

/-- The fixed grace interval the caller adds to its `thread.join` wait
(`logic.py` line 81: `timeout_sec + 0.1`). -/
def grace : ℚ := 1/10

/-- Message of the forced-termination return (`logic.py` line 86). -/
def timeout_message : String := "Превышено время выполнения"

/-- Message of the empty-queue return (`logic.py` line 91). -/
def no_result_message : String := "Нет результата"

/-- Environment of one `run_with_timeout` invocation — everything decided
by the OS and the worker process rather than by the function itself:
`exitTime` is the instant the worker would exit on its own (`none` for a
worker that never exits), `delivered` says whether a message actually
reached the queue on a natural exit (`false` models an exit that delivers
nothing, e.g. `SystemExit` or the queue feeder losing the race), and
`termLatency` is how long `terminate()` followed by `join()` takes to
finish once initiated. -/
structure WorkerEnv where
  exitTime : Option ℚ
  delivered : Bool
  termLatency : ℚ
deriving Repr, DecidableEq

/-- Observations of one `run_with_timeout` invocation: the returned tuple,
the instant the caller regains control, how many times this invocation's
queue was written and read, and whether the worker was forcibly
terminated. -/
structure RunResult where
  res : ProcessResult
  returnTime : ℚ
  queueWrites : Nat
  queueReads : Nat
  forciblyTerminated : Bool
deriving Repr, DecidableEq

/-- The overrun path of `run_with_timeout`: the worker is still alive when
the watchdog's `p.join(timeout_sec)` elapses, so the watchdog terminates it
at the deadline (the worker delivers nothing) and its `p.join()` returns
after `termLatency`.  The caller's `thread.join(timeout_sec + 0.1)` then
resumes either after the watchdog finished (`termLatency ≤ grace`: a dead
worker and an empty queue, so line 91 returns `("error", "Нет результата")`)
or at the grace cut-off with the worker still dying (`termLatency > grace`:
line 83's `p.is_alive()` is true, the caller terminates and joins without a
bound and line 86 returns `("timeout", ...)` once the worker is dead at
`timeout_sec + termLatency`). -/
def overrunResult (timeout_sec : ℚ) (env : WorkerEnv) : RunResult :=
  if env.termLatency ≤ grace then
    { res := .error no_result_message, returnTime := timeout_sec + env.termLatency,
      queueWrites := 0, queueReads := 0, forciblyTerminated := true }
  else
    { res := .timeout timeout_message, returnTime := timeout_sec + env.termLatency,
      queueWrites := 0, queueReads := 0, forciblyTerminated := true }

/-- Embedding of `run_with_timeout` (`logic.py` lines 50-91).  A fresh
empty queue is created for the invocation (line 67).  If the worker exits
naturally within the deadline, the watchdog's join returns at that instant,
no one terminates anything, the caller resumes at that instant and reads
the queue: the delivered message (lines 88-89) or, if nothing was
delivered, `("error", "Нет результата")` (line 91).  Otherwise the run is
the overrun path. -/
def run_with_timeout (user_code_str : String) (input_data : List Int)
    (timeout_sec : ℚ) (env : WorkerEnv) : RunResult :=
  match env.exitTime with
  | some t =>
    if t ≤ timeout_sec then
      if env.delivered then
        { res := msgToResult (run_user_code_in_process user_code_str input_data),
          returnTime := t, queueWrites := 1, queueReads := 1,
          forciblyTerminated := false }
      else
        { res := .error no_result_message, returnTime := t,
          queueWrites := 0, queueReads := 0, forciblyTerminated := false }
    else
      overrunResult timeout_sec env
  | Option.none => overrunResult timeout_sec env

/-- Outcome of `exec(user_code, \x7b\x7d, local_vars)` followed by the lookup
`local_vars.get("process_data")` (`logic.py` lines 152-156).  `exec` is the
external code-loading collaborator of the spec, so its outcome is an input
of the model.  `parseErr` carries the message and the 1-based line number
of a `SyntaxError`; `loadedNotAsync` covers both a missing symbol and a
non-`async` one — `local_vars.get` yields `None` when the symbol is
missing, and `asyncio.iscoroutinefunction(None)` is false, so both fall
into the same branch at line 156; `execFailed` is any other exception during
`exec`; `loadedAsync` is a successfully loaded asynchronous callable with
behaviour `f`. -/
inductive ExecOutcome where
  | parseErr (msg : String) (lineno : Nat)
  | loadedNotAsync
  | execFailed (msg : String)
  | loadedAsync (f : List Int → CallBehavior)

/-- The message built at `logic.py` line 163. -/
def parse_error_text (msg : String) (lineno : Nat) : String :=
  "Синтаксическая ошибка: " ++ msg ++ " в строке " ++ toString lineno

/-- The message of the not-async branch (`logic.py` line 159). -/
def not_async_text : String := "Функция process_data должна быть асинхронной (async def)"

/-- Rendering of the time field at `logic.py` line 178: Python's
`if res["time"]` is falsy for both `None` and `0.0`, giving the dash; the
3-decimal float formatting is abstracted to `toString`. -/
def render_time : Option ℚ → String
  | some t => if t == 0 then "—" else toString t ++ " с"
  | Option.none => "—"

/-- Python `str()` of a result/expected value, as interpolated at
`logic.py` line 185. -/
def PyVal.text : PyVal → String
  | .int n => toString n
  | .float v => toString v
  | .bool b => if b then "True" else "False"
  | .str s => s
  | .pynone => "None"

/-- The report lines contributed by one result (`logic.py` lines 175-186):
a status line, and for a failing test either the captured error or an
expected-vs-actual line. -/
def render_result_line (i : Nat) (r : TestRes (List Int)) : List String :=
  let status := if r.passed then "✅" else "❌"
  let line1 := "Тест " ++ toString i ++ ": " ++ status ++ " Время: " ++ render_time r.time
  if r.passed then [line1]
  else
    match r.error with
    | some e => [line1, "Ошибка:\n" ++ e]
    | Option.none =>
      [line1, "Ожидалось: " ++ r.expected.text ++ ", получили: "
        ++ (match r.result with | some v => v.text | Option.none => "None")]

/-- The report body: `enumerate(results, 1)` rendered in order. -/
def render_report : Nat → List (TestRes (List Int)) → List String
  | _, [] => []
  | i, r :: rest => render_result_line i r ++ render_report (i + 1) rest

/-- Embedding of `validate_user_code` (`logic.py` lines 136-189).  The
load outcome is the explicit input `load`; the line-167 invocation
`asyncio.run(run_all_tests(user_func, test_cases))` is the argument
`runTests` (returning either the per-case results or a raised
scheduling-machinery exception), so the failure branches' independence
from it states that the harness is never invoked there.  Each failure
branch returns before `runTests` is touched, exactly as each `return` at
lines 157-165 precedes line 168. -/
def validate_user_code (load : ExecOutcome) (test_cases : List (List Int × PyVal))
    (runTests : (List Int → CallBehavior) → List (List Int × PyVal) →
      Except String (List (TestRes (List Int)))) :
    Bool × String × Option Nat :=
  match load with
  | .parseErr msg lineno =>
    (false, parse_error_text msg lineno, some lineno)
  | .loadedNotAsync =>
    (false, not_async_text, Option.none)
  | .execFailed msg =>
    (false, "Ошибка при загрузке функции: " ++ msg, Option.none)
  | .loadedAsync f =>
    match runTests f test_cases with
    | .error e => (false, "Ошибка выполнения тестов: " ++ e, Option.none)
    | .ok results =>
      (results.all (fun r => r.passed),
        String.intercalate "\n" (render_report 1 results), Option.none)

/-- Writing the slots of a completion order: a slot that some completed
task owns holds that task's own result, untouched slots keep their prior
content. -/
theorem fillSlots_eq (run : Nat → Option β) (sch : List Nat) :
    ∀ (s : Nat → Option β) (i : Nat),
      fillSlots run sch s i = if i ∈ sch then run i else s i := by
  induction sch with
  | nil => intro s i; simp [fillSlots]
  | cons a rest ih =>
    intro s i
    rw [fillSlots, ih]
    by_cases h1 : i ∈ rest
    · simp [h1]
    · by_cases h2 : i = a
      · subst h2; simp [h1]
      · simp [h1, h2]

/-- Reading out index-indexed slots in input order is the same as mapping
over the inputs, whenever every in-range slot is filled with the image of
its own element. -/
theorem filterMap_range_eq_map (f : γ → β) :
    ∀ (xs : List γ) (h : Nat → Option β),
      (∀ i, i < xs.length → h i = (xs[i]?).map f) →
      (List.range xs.length).filterMap h = xs.map f := by
  intro xs
  induction xs with
  | nil => intro h _; simp
  | cons x rest ih =>
    intro h hh
    have h0 : h 0 = some (f x) := by simpa using hh 0 (by simp)
    rw [List.length_cons, List.range_succ_eq_map, List.filterMap_cons_some h0,
      List.filterMap_map, List.map_cons]
    congr 1
    apply ih
    intro i hi
    simpa using hh (i + 1) (by simpa using Nat.succ_lt_succ hi)

/-- Whatever completion order the scheduler realizes (any order in which
every case index occurs), the harness's output is the in-order map of
`run_single_test` over the cases. -/
theorem run_all_tests_scheduled_eq_map (user_func : α → CallBehavior)
    (test_cases : List (α × PyVal)) (schedule : List Nat)
    (hs : ∀ i, i < test_cases.length → i ∈ schedule) :
    run_all_tests_scheduled user_func test_cases schedule
      = test_cases.map (fun c => run_single_test user_func c.1 c.2 default_timeout) := by
  unfold run_all_tests_scheduled
  apply filterMap_range_eq_map
  intro i hi
  rw [fillSlots_eq]
  simp [hs i hi, caseResult]

/-- The harness output on the canonical order. -/
theorem run_all_tests_eq_map (user_func : α → CallBehavior)
    (test_cases : List (α × PyVal)) :
    run_all_tests user_func test_cases
      = test_cases.map (fun c => run_single_test user_func c.1 c.2 default_timeout) :=
  run_all_tests_scheduled_eq_map _ _ _ (fun _ hi => List.mem_range.mpr hi)

/-- Every branch of `run_single_test` carries the case's own input and
expected value. -/
theorem run_single_test_fields (user_func : α → CallBehavior) (i : α)
    (e : PyVal) (t : ℚ) :
    (run_single_test user_func i e t).input = i
      ∧ (run_single_test user_func i e t).expected = e := by
  unfold run_single_test
  cases user_func i <;> dsimp only <;> try split
  all_goals exact ⟨rfl, rfl⟩

/-- The instant `run_with_timeout` hands control back to its caller: the
worker's own exit instant on a timely natural exit, and the deadline plus
the full terminate-and-join latency otherwise. -/
theorem run_with_timeout_returnTime (s : String) (input : List Int) (T : ℚ)
    (env : WorkerEnv) :
    (run_with_timeout s input T env).returnTime
      = match env.exitTime with
        | some t => if t ≤ T then t else T + env.termLatency
        | Option.none => T + env.termLatency := by
  unfold run_with_timeout overrunResult
  cases env.exitTime with
  | none => dsimp only; split <;> rfl
  | some t =>
    by_cases h : t ≤ T
    · simp only [h, if_true]
      split <;> rfl
    · simp only [h, if_false]
      split <;> rfl

/-- C1 (counterexample): the claim requires that a returned `20.0` against
an expected `20` must NOT pass, but `run_single_test` compares with
Python `==` (`passed = result == expected_output`, line 56), which equates
`20.0` and `20`: a call on input `[1, 2, 3, 4]` returning the float `20.0`
within the deadline is recorded as passed against the expected integer
`20`. -/
theorem c1_counterexample :
    (run_single_test (fun _ : List Int => CallBehavior.returns (PyVal.float 20) 1)
      [1, 2, 3, 4] (PyVal.int 20) default_timeout).passed = true := by
  have h : ¬ (default_timeout < (1:ℚ)) := by norm_num [default_timeout]
  simp [run_single_test, h, pyEq, PyVal.toNum]

/-- C1 (amended): the result's `passed` flag is true exactly when the call
completed within the timeout without an exception and the returned value
equals the expected value under Python's `==` — which is value equality
across numeric types, so `20.0` against `20` does pass. -/
theorem c1_amended (user_func : α → CallBehavior) (input_data : α)
    (expected_output : PyVal) (timeout : ℚ) :
    (run_single_test user_func input_data expected_output timeout).passed = true ↔
      ∃ v d, user_func input_data = CallBehavior.returns v d ∧ d ≤ timeout ∧
        pyEq v expected_output = true := by
  cases hb : user_func input_data with
  | returns v d =>
    by_cases hlt : timeout < d
    · simp only [run_single_test, hb, if_pos hlt]
      constructor
      · intro hfalse; cases hfalse
      · rintro ⟨v', d', heq, hd, -⟩
        cases heq
        exact absurd hlt (not_lt.mpr hd)
    · simp only [run_single_test, hb, if_neg hlt]
      constructor
      · intro hp
        exact ⟨v, d, rfl, not_lt.mp hlt, hp⟩
      · rintro ⟨v', d', heq, -, hp⟩
        cases heq
        exact hp
  | raises tb d =>
    by_cases hlt : timeout < d <;>
      simp [run_single_test, hb, hlt]
  | hangs =>
    simp [run_single_test, hb]

/-- C2 (counterexample): a worker that exits cleanly at time 1 (well within
the deadline 3) without delivering any message makes `run_with_timeout`
return `("error", "Нет результата")` — the same generic `"error"` status
used for application exceptions; the source's result type
(`Literal["result", "error", "timeout"]`) has no distinct NoResult kind
at all. -/
theorem c2_counterexample :
    (run_with_timeout "user source" [1, 2] 3 (WorkerEnv.mk (some 1) false 0)).res
        = ProcessResult.error no_result_message
      ∧ ProcessResult.status
          ((run_with_timeout "user source" [1, 2] 3 (WorkerEnv.mk (some 1) false 0)).res)
        = "error" := by
  have h : ((1:ℚ) ≤ 3) := by norm_num
  constructor
  · simp [run_with_timeout, h]
  · simp [run_with_timeout, h, ProcessResult.status]

/-- C2 (amended): when the worker exits cleanly within the deadline but no
message was delivered on the result channel, `run_with_timeout` returns the
generic `("error", "Нет результата")` tuple — the delivery anomaly shares
the `"error"` status with application exceptions and is distinguished only
by its message text, not by a distinct outcome kind. -/
theorem c2_amended (s : String) (input : List Int) (timeout_sec t : ℚ)
    (env : WorkerEnv) (hex : env.exitTime = some t) (ht : t ≤ timeout_sec)
    (hdel : env.delivered = false) :
    (run_with_timeout s input timeout_sec env).res
      = ProcessResult.error no_result_message := by
  simp [run_with_timeout, hex, ht, hdel]

/-- C2 (witness for the amended theorem). -/
theorem c2_witness :
    ((WorkerEnv.mk (some 1) false 2).exitTime = some 1
        ∧ ((1:ℚ) ≤ 4)
        ∧ (WorkerEnv.mk (some 1) false 2).delivered = false)
      ∧ (run_with_timeout "text" [3] 4 (WorkerEnv.mk (some 1) false 2)).res
        = ProcessResult.error no_result_message :=
  ⟨⟨rfl, by norm_num, rfl⟩,
    c2_amended "text" [3] 4 1 (WorkerEnv.mk (some 1) false 2) rfl (by norm_num) rfl⟩

/-- C3 (code bug): a worker that never exits is forcibly terminated by the
watchdog at the deadline; when the watchdog's terminate-and-join completes
within the fixed 0.1 grace (here instantaneously), the caller resumes with
a dead worker and an empty queue and `run_with_timeout` returns
`("error", "Нет результата")` (logic.py line 91) instead of the
`("timeout", ...)` its own docstring promises on exceeded time. -/
theorem c3_bug :
    (run_with_timeout "user source" [] 3 (WorkerEnv.mk Option.none true 0)).forciblyTerminated
        = true
      ∧ (run_with_timeout "user source" [] 3 (WorkerEnv.mk Option.none true 0)).res
        = ProcessResult.error no_result_message
      ∧ ProcessResult.status
          ((run_with_timeout "user source" [] 3 (WorkerEnv.mk Option.none true 0)).res)
        ≠ "timeout" := by
  have h : ((0:ℚ) ≤ grace) := by norm_num [grace]
  refine ⟨?_, ?_, ?_⟩ <;>
    simp [run_with_timeout, overrunResult, h, ProcessResult.status]

/-- C4: whatever order the concurrent tasks complete in (any `schedule`
containing every case index), the harness report has exactly one result per
input case, the i-th result is `run_single_test` on the i-th case, and it
carries that case's own input and expected value. -/
theorem c4_order_preserved (user_func : α → CallBehavior)
    (test_cases : List (α × PyVal)) (schedule : List Nat)
    (hs : ∀ i, i < test_cases.length → i ∈ schedule) :
    (run_all_tests_scheduled user_func test_cases schedule).length = test_cases.length
      ∧ (∀ i : Nat, (run_all_tests_scheduled user_func test_cases schedule)[i]?
          = (test_cases[i]?).map
              (fun c : α × PyVal => run_single_test user_func c.1 c.2 default_timeout))
      ∧ (∀ (i : Nat) (c : α × PyVal), test_cases[i]? = some c →
          ∃ r, (run_all_tests_scheduled user_func test_cases schedule)[i]? = some r
            ∧ r.input = c.1 ∧ r.expected = c.2) := by
  have hmap := run_all_tests_scheduled_eq_map user_func test_cases schedule hs
  refine ⟨?_, ?_, ?_⟩
  · rw [hmap, List.length_map]
  · intro i
    rw [hmap, List.getElem?_map]
  · intro i c hc
    refine ⟨run_single_test user_func c.1 c.2 default_timeout, ?_, ?_, ?_⟩
    · rw [hmap, List.getElem?_map, hc, Option.map_some']
    · exact (run_single_test_fields user_func c.1 c.2 default_timeout).1
    · exact (run_single_test_fields user_func c.1 c.2 default_timeout).2

/-- C4 (witness): two cases run under the reversed completion order. -/
theorem c4_witness :
    (∀ i, i < ([((1:Int), PyVal.int 1), ((2:Int), PyVal.int 4)]
        : List (Int × PyVal)).length → i ∈ [1, 0])
      ∧ ((run_all_tests_scheduled
            (fun n : Int => CallBehavior.returns (PyVal.int (n * n)) 1)
            [((1:Int), PyVal.int 1), ((2:Int), PyVal.int 4)] [1, 0]).length
          = ([((1:Int), PyVal.int 1), ((2:Int), PyVal.int 4)]
              : List (Int × PyVal)).length
        ∧ (∀ i : Nat, (run_all_tests_scheduled
              (fun n : Int => CallBehavior.returns (PyVal.int (n * n)) 1)
              [((1:Int), PyVal.int 1), ((2:Int), PyVal.int 4)] [1, 0])[i]?
            = (([((1:Int), PyVal.int 1), ((2:Int), PyVal.int 4)]
                : List (Int × PyVal))[i]?).map
                (fun c : Int × PyVal => run_single_test
                  (fun n : Int => CallBehavior.returns (PyVal.int (n * n)) 1)
                  c.1 c.2 default_timeout))
        ∧ (∀ (i : Nat) (c : Int × PyVal), (([((1:Int), PyVal.int 1), ((2:Int), PyVal.int 4)]
              : List (Int × PyVal)))[i]? = some c →
            ∃ r, (run_all_tests_scheduled
                (fun n : Int => CallBehavior.returns (PyVal.int (n * n)) 1)
                [((1:Int), PyVal.int 1), ((2:Int), PyVal.int 4)] [1, 0])[i]? = some r
              ∧ r.input = c.1 ∧ r.expected = c.2)) :=
  ⟨by decide,
    c4_order_preserved (fun n : Int => CallBehavior.returns (PyVal.int (n * n)) 1)
      [((1:Int), PyVal.int 1), ((2:Int), PyVal.int 4)] [1, 0] (by decide)⟩

/-- C5: an exception raised while executing one case is captured inside
that case's own result (`passed` false, no value, the rendered trace in
`error`) instead of propagating, and a case's result depends only on the
callable's behaviour on that case's own input: two callables agreeing on
case j's input produce the same j-th result no matter how differently they
behave (raise, hang, time out) on every other case. -/
theorem c5_isolation (user_func uf' : α → CallBehavior)
    (test_cases : List (α × PyVal)) (j : Nat) (cj : α × PyVal)
    (hj : test_cases[j]? = some cj) (hagree : user_func cj.1 = uf' cj.1) :
    ((run_all_tests user_func test_cases)[j]? = (run_all_tests uf' test_cases)[j]?)
      ∧ (∀ (inp : α) (expd : PyVal) (tb : String) (d : ℚ),
          user_func inp = CallBehavior.raises tb d → d ≤ default_timeout →
            (run_single_test user_func inp expd default_timeout).error = some tb
            ∧ (run_single_test user_func inp expd default_timeout).passed = false
            ∧ (run_single_test user_func inp expd default_timeout).result
              = Option.none) := by
  constructor
  · rw [run_all_tests_eq_map, run_all_tests_eq_map, List.getElem?_map,
      List.getElem?_map, hj, Option.map_some', Option.map_some']
    have : run_single_test user_func cj.1 cj.2 default_timeout
        = run_single_test uf' cj.1 cj.2 default_timeout := by
      unfold run_single_test
      rw [hagree]
    rw [this]
  · intro inp expd tb d hb hd
    have hnlt : ¬ (default_timeout < d) := not_lt.mpr hd
    refine ⟨?_, ?_, ?_⟩ <;> simp [run_single_test, hb, hnlt]

/-- C5 (witness): a one-case list whose callable raises; the raise is
captured in the case's own result. -/
theorem c5_witness :
    (([((0:Int), PyVal.int 0)] : List (Int × PyVal))[0]? = some ((0:Int), PyVal.int 0)
        ∧ (fun _ : Int => CallBehavior.raises "ZeroDivisionError" 1) ((0:Int), PyVal.int 0).1
          = (fun _ : Int => CallBehavior.raises "ZeroDivisionError" 1) ((0:Int), PyVal.int 0).1)
      ∧ (((run_all_tests (fun _ : Int => CallBehavior.raises "ZeroDivisionError" 1)
            [((0:Int), PyVal.int 0)])[0]?
          = (run_all_tests (fun _ : Int => CallBehavior.raises "ZeroDivisionError" 1)
            [((0:Int), PyVal.int 0)])[0]?)
        ∧ (∀ (inp : Int) (expd : PyVal) (tb : String) (d : ℚ),
            (fun _ : Int => CallBehavior.raises "ZeroDivisionError" 1) inp
              = CallBehavior.raises tb d → d ≤ default_timeout →
              (run_single_test (fun _ : Int => CallBehavior.raises "ZeroDivisionError" 1)
                inp expd default_timeout).error = some tb
              ∧ (run_single_test (fun _ : Int => CallBehavior.raises "ZeroDivisionError" 1)
                inp expd default_timeout).passed = false
              ∧ (run_single_test (fun _ : Int => CallBehavior.raises "ZeroDivisionError" 1)
                inp expd default_timeout).result = Option.none)) :=
  ⟨⟨rfl, rfl⟩,
    c5_isolation (fun _ : Int => CallBehavior.raises "ZeroDivisionError" 1)
      (fun _ : Int => CallBehavior.raises "ZeroDivisionError" 1)
      [((0:Int), PyVal.int 0)] 0 ((0:Int), PyVal.int 0) rfl rfl⟩

/-- C6: a call that exceeds the per-case timeout (whose harness default is
3.0) is recorded with the timed-out shape of the source's dictionary: no
partial value, no elapsed time, `passed` false, and the `TimeoutError`
message — in particular it is never the success shape. -/
theorem c6_timed_out (user_func : α → CallBehavior) (input_data : α)
    (expected_output : PyVal) (timeout : ℚ)
    (h : exceedsTimeout (user_func input_data) timeout = true) :
    default_timeout = 3
      ∧ (run_single_test user_func input_data expected_output timeout).result
        = Option.none
      ∧ (run_single_test user_func input_data expected_output timeout).time
        = Option.none
      ∧ (run_single_test user_func input_data expected_output timeout).passed = false
      ∧ (run_single_test user_func input_data expected_output timeout).error
        = some timeout_error_msg := by
  refine ⟨rfl, ?_⟩
  cases hb : user_func input_data with
  | returns v d =>
    rw [hb] at h
    simp only [exceedsTimeout, decide_eq_true_eq] at h
    refine ⟨?_, ?_, ?_, ?_⟩ <;> simp [run_single_test, hb, h]
  | raises tb d =>
    rw [hb] at h
    simp only [exceedsTimeout, decide_eq_true_eq] at h
    refine ⟨?_, ?_, ?_, ?_⟩ <;> simp [run_single_test, hb, h]
  | hangs =>
    refine ⟨?_, ?_, ?_, ?_⟩ <;> simp [run_single_test, hb]

/-- C6 (witness): a call sleeping past the default 3.0-second deadline. -/
theorem c6_witness :
    (exceedsTimeout ((fun _ : Int => CallBehavior.returns (PyVal.int 0) 5) 7)
        default_timeout = true)
      ∧ (default_timeout = 3
        ∧ (run_single_test (fun _ : Int => CallBehavior.returns (PyVal.int 0) 5)
            7 (PyVal.int 0) default_timeout).result = Option.none
        ∧ (run_single_test (fun _ : Int => CallBehavior.returns (PyVal.int 0) 5)
            7 (PyVal.int 0) default_timeout).time = Option.none
        ∧ (run_single_test (fun _ : Int => CallBehavior.returns (PyVal.int 0) 5)
            7 (PyVal.int 0) default_timeout).passed = false
        ∧ (run_single_test (fun _ : Int => CallBehavior.returns (PyVal.int 0) 5)
            7 (PyVal.int 0) default_timeout).error = some timeout_error_msg) :=
  ⟨by decide,
    c6_timed_out (fun _ : Int => CallBehavior.returns (PyVal.int 0) 5)
      7 (PyVal.int 0) default_timeout (by decide)⟩

/-- C7: on a syntax error, `validate_user_code` returns failure with the
message built from the error text and the 1-based line number, together
with that line number, and its output does not depend on the harness
argument (the harness is never invoked); on a successful parse where
`process_data` is missing or not declared `async`, it returns failure with
no line number, again independently of the harness argument. -/
theorem c7_load_failure (msg : String) (lineno : Nat)
    (tc : List (List Int × PyVal))
    (rt rt' : (List Int → CallBehavior) → List (List Int × PyVal) →
      Except String (List (TestRes (List Int)))) :
    (validate_user_code (ExecOutcome.parseErr msg lineno) tc rt
        = (false, parse_error_text msg lineno, some lineno))
      ∧ (validate_user_code (ExecOutcome.parseErr msg lineno) tc rt
        = validate_user_code (ExecOutcome.parseErr msg lineno) tc rt')
      ∧ (validate_user_code ExecOutcome.loadedNotAsync tc rt
        = (false, not_async_text, Option.none))
      ∧ (validate_user_code ExecOutcome.loadedNotAsync tc rt
        = validate_user_code ExecOutcome.loadedNotAsync tc rt') :=
  ⟨rfl, rfl, rfl, rfl⟩

/-- C8 (counterexample): the fixed grace is 0.1; a worker that never exits
and whose terminate-and-join takes 1 time-unit keeps the caller blocked
until 3 + 1 = 4, strictly past deadline + grace = 3.1 — the caller's final
`p.join()` (logic.py line 85) has no timeout, so the bound is not hard. -/
theorem c8_counterexample :
    grace = 1/10
      ∧ (run_with_timeout "user source" [] 3 (WorkerEnv.mk Option.none true 1)).returnTime
        = 4
      ∧ ¬ ((run_with_timeout "user source" [] 3
            (WorkerEnv.mk Option.none true 1)).returnTime ≤ 3 + grace) := by
  have h : ¬ ((1:ℚ) ≤ grace) := by norm_num [grace]
  refine ⟨rfl, ?_, ?_⟩
  · rw [run_with_timeout_returnTime]
    norm_num
  · rw [run_with_timeout_returnTime]
    norm_num [grace]

/-- C8 (amended): the caller regains control by deadline + termination
latency — so by deadline + grace exactly when the terminate-and-join
completes within the grace; when the termination/join itself hangs (large
latency) the caller is blocked past any fixed bound, because the final
`p.join()` is unbounded. -/
theorem c8_amended (s : String) (input : List Int) (timeout_sec : ℚ)
    (env : WorkerEnv) (hL : 0 ≤ env.termLatency) :
    (run_with_timeout s input timeout_sec env).returnTime
        ≤ timeout_sec + env.termLatency
      ∧ (env.termLatency ≤ grace →
          (run_with_timeout s input timeout_sec env).returnTime
            ≤ timeout_sec + grace) := by
  have hg : (0:ℚ) ≤ grace := by norm_num [grace]
  rw [run_with_timeout_returnTime]
  cases env.exitTime with
  | none =>
    dsimp only
    exact ⟨le_refl _, fun h => by linarith⟩
  | some t =>
    dsimp only
    by_cases ht : t ≤ timeout_sec
    · rw [if_pos ht]
      exact ⟨by linarith, fun _ => by linarith⟩
    · rw [if_neg ht]
      exact ⟨le_refl _, fun h => by linarith⟩

/-- C8 (witness for the amended theorem). -/
theorem c8_witness :
    ((0:ℚ) ≤ (WorkerEnv.mk (some 1) true 2).termLatency)
      ∧ ((run_with_timeout "text" [5] 3 (WorkerEnv.mk (some 1) true 2)).returnTime
          ≤ 3 + (WorkerEnv.mk (some 1) true 2).termLatency
        ∧ ((WorkerEnv.mk (some 1) true 2).termLatency ≤ grace →
            (run_with_timeout "text" [5] 3 (WorkerEnv.mk (some 1) true 2)).returnTime
              ≤ 3 + grace)) :=
  ⟨by norm_num,
    c8_amended "text" [5] 3 (WorkerEnv.mk (some 1) true 2) (by norm_num)⟩

/-- C9: the result channel of `run_with_timeout` is created fresh and
empty for the invocation (it is a local of the call, logic.py line 67), is
written at most once and read at most once, and anything read was written
by this invocation's own worker on this invocation's own input — so no
result of one invocation can be observed in a later one. -/
theorem c9_queue_single_use (s : String) (input : List Int) (timeout_sec : ℚ)
    (env : WorkerEnv) :
    (run_with_timeout s input timeout_sec env).queueWrites ≤ 1
      ∧ (run_with_timeout s input timeout_sec env).queueReads
        ≤ (run_with_timeout s input timeout_sec env).queueWrites
      ∧ ((run_with_timeout s input timeout_sec env).queueReads = 1 →
          (run_with_timeout s input timeout_sec env).res
            = msgToResult (run_user_code_in_process s input)) := by
  unfold run_with_timeout overrunResult
  cases env.exitTime with
  | none =>
    dsimp only
    split <;> exact ⟨by norm_num, by norm_num, fun h => by cases h⟩
  | some t =>
    dsimp only
    by_cases ht : t ≤ timeout_sec
    · rw [if_pos ht]
      by_cases hd : env.delivered
      · rw [if_pos hd]
        exact ⟨le_refl _, le_refl _, fun _ => rfl⟩
      · rw [if_neg hd]
        exact ⟨by norm_num, le_refl _, fun h => by cases h⟩
    · rw [if_neg ht]
      split <;> exact ⟨by norm_num, by norm_num, fun h => by cases h⟩

/-- C10: `run_with_timeout` ignores its source-text argument entirely —
the worker executes the statically imported `user_code.process_data`
(logic.py line 44), never the submitted text — so for any fixed input,
timeout and environment, two invocations with different source texts
return the same result. -/
theorem c10_source_text_ignored (s1 s2 : String) (input : List Int)
    (timeout_sec : ℚ) (env : WorkerEnv) :
    run_with_timeout s1 input timeout_sec env
      = run_with_timeout s2 input timeout_sec env := rfl
